import Mathlib

/-!
Shallow embedding of the worker discovery, liveness and transport subsystem of
the claude-mem hook layer (src/shared/worker-utils.ts, src/shared/http-client.ts
and the four lifecycle hook handlers).  External effects — the settings file
read, the process environment, the clock, network calls and stdin — are passed
in as explicit inputs; JavaScript-level behaviour such as parseInt producing
NaN, truthiness of environment strings, and the try/catch control flow of the
handlers is modelled explicitly.
-/

namespace ClaudeMem

/-- Result of JavaScript parseInt with radix 10: either NaN or an integer. -/
inductive JSNum where
  | nan : JSNum
  | num : Int → JSNum
  deriving DecidableEq, Repr

/-- JavaScript parseInt(s, 10): skip leading whitespace, read an optional
sign, then the longest prefix of decimal digits; NaN when no digit is found. -/
def parseIntJS (s : String) : JSNum :=
  let cs := s.toList.dropWhile (fun c => c.isWhitespace)
  let signAndRest : Bool × List Char :=
    match cs with
    | '-' :: rest => (true, rest)
    | '+' :: rest => (false, rest)
    | other => (false, other)
  let ds := signAndRest.2.takeWhile (fun c => c.isDigit)
  if ds.isEmpty then JSNum.nan
  else
    let n : Nat := ds.foldl (fun a c => a * 10 + (c.toNat - 48)) 0
    JSNum.num (if signAndRest.1 then -(n : Int) else (n : Int))

/-- The process environment variables this subsystem may consult.
worker-utils.ts reads process.env.CLAUDE_MEM_WORKER_PORT in getWorkerPort;
no function of the module reads an environment variable for the host. -/
structure ProcEnv where
  workerPortVar : Option String
  workerHostVar : Option String
  deriving DecidableEq, Repr

/-- JavaScript truthiness of an optional environment string:
undefined and the empty string are falsy. -/
def envTruthy : Option String → Bool
  | none => false
  | some s => !s.isEmpty

/-- Module-level mutable state of worker-utils.ts: cachedPort (number | null,
where the number may be NaN), cachedHost (string | null) and cacheTime. -/
structure WorkerUtilsState where
  cachedPort : Option JSNum
  cachedHost : Option String
  cacheTime : Int
  deriving DecidableEq, Repr

/-- Initial module state: cachedPort = null, cachedHost = null, cacheTime = 0. -/
def initialState : WorkerUtilsState := ⟨none, none, 0⟩

/-- CACHE_TTL = 60000 ms (60 seconds) for the settings cache. -/
def CACHE_TTL : Int := 60000

/-- Result of one getWorkerPort call: the value returned, the module state
after the call, and whether the settings file was read during the call. -/
structure PortResult where
  value : JSNum
  state : WorkerUtilsState
  didRead : Bool
  deriving DecidableEq, Repr

/-- The cache/settings chain of getWorkerPort (the code after the environment
check): serve cachedPort when it is non-null and its age is below CACHE_TTL;
otherwise read the settings file, parseInt its CLAUDE_MEM_WORKER_PORT string,
store it with the current timestamp and return it. -/
def getWorkerPortChain (now : Int) (settingsPort : String) (st : WorkerUtilsState) : PortResult :=
  if st.cachedPort.isSome && decide (now - st.cacheTime < CACHE_TTL) then
    ⟨st.cachedPort.getD JSNum.nan, st, false⟩
  else
    let p := parseIntJS settingsPort
    ⟨p, { st with cachedPort := some p, cacheTime := now }, true⟩

/-- getWorkerPort from worker-utils.ts: if the CLAUDE_MEM_WORKER_PORT
environment variable is truthy and parseInt of it is not NaN, return that
value immediately (no cache access, no file read); otherwise fall through to
the cache/settings chain. -/
def getWorkerPort (env : ProcEnv) (now : Int) (settingsPort : String) (st : WorkerUtilsState) : PortResult :=
  if envTruthy env.workerPortVar then
    let envPort := parseIntJS (env.workerPortVar.getD "")
    if envPort ≠ JSNum.nan then ⟨envPort, st, false⟩
    else getWorkerPortChain now settingsPort st
  else getWorkerPortChain now settingsPort st

/-- Result of one getWorkerHost call. -/
structure HostResult where
  value : String
  state : WorkerUtilsState
  didRead : Bool
  deriving DecidableEq, Repr

/-- getWorkerHost from worker-utils.ts: return cachedHost when non-null;
otherwise read the settings file, cache CLAUDE_MEM_WORKER_HOST and return it.
The source consults no environment variable and no clock here: the env
parameter is the ambient process environment, which the function ignores,
and the cached host is kept for the whole process lifetime. -/
def getWorkerHost (_env : ProcEnv) (settingsHost : String) (st : WorkerUtilsState) : HostResult :=
  match st.cachedHost with
  | some h => ⟨h, st, false⟩
  | none => ⟨settingsHost, { st with cachedHost := some settingsHost }, true⟩

/-- clearPortCache from worker-utils.ts: sets cachedPort and cachedHost to
null (cacheTime is left unchanged). -/
def clearPortCache (st : WorkerUtilsState) : WorkerUtilsState :=
  { st with cachedPort := none, cachedHost := none }

/-- Run a sequence of getWorkerHost calls, each with its own ambient
environment and settings-file content, threading the module state; returns
the list of values, the final state and the number of settings-file reads. -/
def runHostCalls (calls : List (ProcEnv × String)) (st : WorkerUtilsState) : List String × WorkerUtilsState × Nat :=
  match calls with
  | [] => ([], st, 0)
  | c :: rest =>
    let r := getWorkerHost c.1 c.2 st
    let t := runHostCalls rest r.state
    (r.value :: t.1, t.2.1, (if r.didRead then 1 else 0) + t.2.2)

/-- Loop body of findAvailablePort: i counts from the current offset while
fuel many attempts remain; returns the chosen port and the list of ports
probed, in probe order.  The TCP-level availability probe
(isPortAvailableAtTcpLevel, defined outside this module) is the parameter
free. -/
def findAvailablePortGo (free : Nat → Bool) (basePort : Nat) : Nat → Nat → Nat × List Nat
  | _, 0 => (basePort, [])
  | i, Nat.succ fuel =>
    let portToTry := basePort + i
    if free portToTry then (portToTry, [portToTry])
    else
      let rest := findAvailablePortGo free basePort (i + 1) fuel
      (rest.1, portToTry :: rest.2)

/-- findAvailablePort from worker-utils.ts: probe basePort, basePort+1, ...,
basePort+maxAttempts-1 in order and return the first port the TCP-level
probe reports free; when none is free, return basePort unchanged.  Also
returns the list of ports actually probed. -/
def findAvailablePort (basePort : Nat) (free : Nat → Bool) (maxAttempts : Nat) : Nat × List Nat :=
  findAvailablePortGo free basePort 0 maxAttempts

/-- An HTTP response as the hook layer sees it: the ok flag (status in
the 2xx range) and the numeric status. -/
structure Response where
  ok : Bool
  status : Nat
  deriving DecidableEq, Repr

/-- Whether an Except-valued effect completed without throwing. -/
def exOk {α : Type} : Except String α → Bool
  | Except.ok _ => true
  | Except.error _ => false

/-- Whether a fetch outcome is a response with ok = true (a 2xx status);
a rejected fetch counts as not ok. -/
def respOk : Except String Response → Bool
  | Except.ok r => r.ok
  | Except.error _ => false

/-- How the underlying fetch behaves in one run of fetchWithTimeout:
it settles (fulfils or rejects) at a given time, or never settles. -/
inductive FetchEvent where
  | settles : Int → Except String Response → FetchEvent
  | neverSettles : FetchEvent
  deriving Repr

/-- Outcome of the Promise.race in fetchWithTimeout: when the promise
settles, with what, and whether clearTimeout ran while the timer was still
pending (on the branch where the fetch settled before the timer fired). -/
structure RaceResult where
  settleTime : Int
  outcome : Except String Response
  timerCleared : Bool
  deriving Repr

/-- The timeout rejection message of fetchWithTimeout. -/
def timeoutMessage (timeoutMs : Int) : String :=
  "Request timed out after " ++ toString timeoutMs ++ "ms"

/-- fetchWithTimeout from worker-utils.ts: a setTimeout that rejects after
timeoutMs races the fetch; the first settlement wins.  When the fetch
settles strictly before the timer fires, its callback clears the pending
timer and the promise adopts the fetch outcome; otherwise the timer has
already rejected the promise with the timeout error (the later clearTimeout
in the fetch callback is a no-op on a fired timer). -/
def fetchWithTimeout (timeoutMs : Int) (ev : FetchEvent) : RaceResult :=
  match ev with
  | FetchEvent.neverSettles =>
    ⟨timeoutMs, Except.error (timeoutMessage timeoutMs), false⟩
  | FetchEvent.settles t r =>
    if t < timeoutMs then ⟨t, r, true⟩
    else ⟨timeoutMs, Except.error (timeoutMessage timeoutMs), false⟩

/-- The two keep-alive agents of http-client.ts. -/
inductive AgentKind where
  | httpKeepAlive : AgentKind
  | httpsKeepAlive : AgentKind
  deriving DecidableEq, Repr

/-- Agent selection in fetchKeepAlive: the https agent for URLs starting
with "https://", the http agent otherwise. -/
def fetchKeepAliveAgent (url : String) : AgentKind :=
  if url.startsWith "https://" then AgentKind.httpsKeepAlive
  else AgentKind.httpKeepAlive

/-- The network outcomes available to one handler invocation: the outcome a
call through the global fetch would have, and the outcome a call through
fetchKeepAlive (the keep-alive transport of http-client.ts) would have. -/
structure NetEnv where
  fetchResult : Except String Response
  fetchKeepAliveResult : Except String Response
  deriving Repr

/-- isWorkerHealthy from worker-utils.ts: await fetchKeepAlive on
/api/health and return response.ok.  There is no try/catch in the function
body, so a rejected fetch propagates to the caller. -/
def isWorkerHealthy (healthFetch : Except String Response) : Except String Bool :=
  match healthFetch with
  | Except.ok r => Except.ok r.ok
  | Except.error e => Except.error e

/-- A response of the /api/version endpoint: ok flag, status and the
version string of its JSON body. -/
structure VResp where
  ok : Bool
  status : Nat
  version : String
  deriving DecidableEq, Repr

/-- getWorkerVersion from worker-utils.ts: fetch /api/version via the
keep-alive transport; throw on a non-ok response, else return the version. -/
def getWorkerVersion (versionFetch : Except String VResp) : Except String String := do
  let v ← versionFetch
  if v.ok then pure v.version
  else throw ("Failed to get worker version: " ++ toString v.status)

/-- checkWorkerVersion from worker-utils.ts: read the plugin version from
package.json, fetch the worker version, and log on mismatch (logging is not
modelled).  Both reads may throw and nothing here catches. -/
def checkWorkerVersion (pluginVersion : Except String String) (versionFetch : Except String VResp) : Except String Unit := do
  let _ ← pluginVersion
  let _ ← getWorkerVersion versionFetch
  pure ()

/-- ensureWorkerRunning from worker-utils.ts: one try block awaits
isWorkerHealthy and, when it reports healthy, awaits checkWorkerVersion and
returns true; the catch around the whole block swallows any error, and
control then falls through to return false. -/
def ensureWorkerRunning (healthFetch : Except String Response)
    (pluginVersion : Except String String) (versionFetch : Except String VResp) : Bool :=
  match (do
    let healthy ← isWorkerHealthy healthFetch
    if healthy then do
      let _ ← checkWorkerVersion pluginVersion versionFetch
      pure true
    else
      pure false : Except String Bool) with
  | Except.ok b => b
  | Except.error _ => false

/-- The JSON body a handler writes to stdout on success.  The cont field
models the JSON key named continue. -/
structure StdoutBody where
  cont : Bool
  suppressOutput : Bool
  message : Option String
  exitCodeField : Option Nat
  deriving DecidableEq, Repr

/-- The terminal outcome of one hook handler invocation: the returned exit
code, the stdout JSON body when one was printed, and the stderr error
message when one was printed. -/
structure HookOutcome where
  exitCode : Nat
  stdout : Option StdoutBody
  stderr : Option String
  deriving DecidableEq, Repr

/-- handleStop from stop.ts: inside try, resolve the session id, POST to
/api/sessions/id/prepare via the global fetch, throw on a non-ok response,
print the success body and return 0; the catch prints the error message and
returns 2. -/
def handleStop (sessionId : Except String String) (net : NetEnv) : HookOutcome :=
  match (do
    let _ ← sessionId
    let r ← net.fetchResult
    if r.ok then pure ()
    else throw ("Failed to prepare session: " ++ toString r.status) : Except String Unit) with
  | Except.ok _ => ⟨0, some ⟨false, true, some "Session stopped", none⟩, none⟩
  | Except.error e => ⟨2, none, some e⟩

/-- handleSessionEnd from session-end.ts: inside try, resolve the session
id, POST to /api/sessions/id/compress via the global fetch, throw on a
non-ok response, print the success body and return 0; the catch prints the
error message and returns 2. -/
def handleSessionEnd (sessionId : Except String String) (net : NetEnv) : HookOutcome :=
  match (do
    let _ ← sessionId
    let r ← net.fetchResult
    if r.ok then pure ()
    else throw ("Failed to compress session: " ++ toString r.status) : Except String Unit) with
  | Except.ok _ => ⟨0, some ⟨false, true, some "Session compressed and stored", none⟩, none⟩
  | Except.error e => ⟨2, none, some e⟩

/-- handleUserPromptSubmit from user-prompt-submit.ts: inside try, resolve
the session id, read the prompt from stdin, POST to
/api/sessions/id/prompt via fetchKeepAlive, throw on a non-ok response,
print the success body and return 3; the catch prints the error message and
returns 2. -/
def handleUserPromptSubmit (sessionId : Except String String)
    (stdinInput : Except String Unit) (net : NetEnv) : HookOutcome :=
  match (do
    let _ ← sessionId
    let _ ← stdinInput
    let r ← net.fetchKeepAliveResult
    if r.ok then pure ()
    else throw ("Failed to save prompt: " ++ toString r.status) : Except String Unit) with
  | Except.ok _ => ⟨3, some ⟨true, false, none, some 3⟩, none⟩
  | Except.error e => ⟨2, none, some e⟩

/-- handlePostToolUse from post-tool-use.ts: inside try, resolve the
session id, read the tool-use data from stdin, POST to
/api/sessions/id/observation via the global fetch, throw on a non-ok
response, print the success body and return 3; the catch prints the error
message and returns 2. -/
def handlePostToolUse (sessionId : Except String String)
    (stdinInput : Except String Unit) (net : NetEnv) : HookOutcome :=
  match (do
    let _ ← sessionId
    let _ ← stdinInput
    let r ← net.fetchResult
    if r.ok then pure ()
    else throw ("Failed to save observation: " ++ toString r.status) : Except String Unit) with
  | Except.ok _ => ⟨3, some ⟨true, false, none, some 3⟩, none⟩
  | Except.error e => ⟨2, none, some e⟩

/-! Helper lemmas about the individual handlers, shared by several claims. -/

theorem handleStop_spec (sid : Except String String) (net : NetEnv) :
    (handleStop sid net).exitCode = (if exOk sid && respOk net.fetchResult then 0 else 2)
    ∧ (handleStop sid net).stderr.isSome = !(exOk sid && respOk net.fetchResult)
    ∧ (handleStop sid net).stdout =
        (if exOk sid && respOk net.fetchResult then some ⟨false, true, some "Session stopped", none⟩ else none) := by
  obtain ⟨f, ka⟩ := net
  rcases sid with m | s <;> rcases f with m1 | ⟨fok, fst⟩ <;>
    first
    | (cases fok <;> exact ⟨rfl, rfl, rfl⟩)
    | exact ⟨rfl, rfl, rfl⟩

theorem handleSessionEnd_spec (sid : Except String String) (net : NetEnv) :
    (handleSessionEnd sid net).exitCode = (if exOk sid && respOk net.fetchResult then 0 else 2)
    ∧ (handleSessionEnd sid net).stderr.isSome = !(exOk sid && respOk net.fetchResult)
    ∧ (handleSessionEnd sid net).stdout =
        (if exOk sid && respOk net.fetchResult then
          some ⟨false, true, some "Session compressed and stored", none⟩ else none) := by
  obtain ⟨f, ka⟩ := net
  rcases sid with m | s <;> rcases f with m1 | ⟨fok, fst⟩ <;>
    first
    | (cases fok <;> exact ⟨rfl, rfl, rfl⟩)
    | exact ⟨rfl, rfl, rfl⟩

theorem handleUserPromptSubmit_spec (sid : Except String String) (inp : Except String Unit) (net : NetEnv) :
    (handleUserPromptSubmit sid inp net).exitCode =
        (if exOk sid && exOk inp && respOk net.fetchKeepAliveResult then 3 else 2)
    ∧ (handleUserPromptSubmit sid inp net).stderr.isSome =
        !(exOk sid && exOk inp && respOk net.fetchKeepAliveResult)
    ∧ (handleUserPromptSubmit sid inp net).stdout =
        (if exOk sid && exOk inp && respOk net.fetchKeepAliveResult then
          some ⟨true, false, none, some 3⟩ else none) := by
  obtain ⟨f, ka⟩ := net
  rcases sid with m | s <;> rcases inp with m2 | i <;> rcases ka with m1 | ⟨kok, kst⟩ <;>
    first
    | (cases kok <;> exact ⟨rfl, rfl, rfl⟩)
    | exact ⟨rfl, rfl, rfl⟩

theorem handlePostToolUse_spec (sid : Except String String) (inp : Except String Unit) (net : NetEnv) :
    (handlePostToolUse sid inp net).exitCode =
        (if exOk sid && exOk inp && respOk net.fetchResult then 3 else 2)
    ∧ (handlePostToolUse sid inp net).stderr.isSome =
        !(exOk sid && exOk inp && respOk net.fetchResult)
    ∧ (handlePostToolUse sid inp net).stdout =
        (if exOk sid && exOk inp && respOk net.fetchResult then
          some ⟨true, false, none, some 3⟩ else none) := by
  obtain ⟨f, ka⟩ := net
  rcases sid with m | s <;> rcases inp with m2 | i <;> rcases f with m1 | ⟨fok, fst⟩ <;>
    first
    | (cases fok <;> exact ⟨rfl, rfl, rfl⟩)
    | exact ⟨rfl, rfl, rfl⟩

/-- C1: for every lifecycle hook handler and every execution path, a
successful worker call yields exit code 0 for the stop/session-end handlers
and exit code 3 for the prompt-submit and tool-observation handlers; the
prompt-submit success path emits a JSON body whose continue field is true;
any thrown error or non-2xx response yields exit code 2 with the error
message on stderr; no other exit codes occur and no exception escapes (the
handlers are total functions into HookOutcome). -/
theorem hook_exit_code_contract (sid : Except String String) (inp : Except String Unit) (net : NetEnv) :
    ((handleStop sid net).exitCode = (if exOk sid && respOk net.fetchResult then 0 else 2))
    ∧ ((handleStop sid net).stderr.isSome = !(exOk sid && respOk net.fetchResult))
    ∧ ((handleSessionEnd sid net).exitCode = (if exOk sid && respOk net.fetchResult then 0 else 2))
    ∧ ((handleSessionEnd sid net).stderr.isSome = !(exOk sid && respOk net.fetchResult))
    ∧ ((handleUserPromptSubmit sid inp net).exitCode =
        (if exOk sid && exOk inp && respOk net.fetchKeepAliveResult then 3 else 2))
    ∧ ((handleUserPromptSubmit sid inp net).stderr.isSome =
        !(exOk sid && exOk inp && respOk net.fetchKeepAliveResult))
    ∧ ((handleUserPromptSubmit sid inp net).stdout =
        (if exOk sid && exOk inp && respOk net.fetchKeepAliveResult then
          some ⟨true, false, none, some 3⟩ else none))
    ∧ ((handlePostToolUse sid inp net).exitCode =
        (if exOk sid && exOk inp && respOk net.fetchResult then 3 else 2))
    ∧ ((handlePostToolUse sid inp net).stderr.isSome =
        !(exOk sid && exOk inp && respOk net.fetchResult)) :=
  ⟨(handleStop_spec sid net).1, (handleStop_spec sid net).2.1,
   (handleSessionEnd_spec sid net).1, (handleSessionEnd_spec sid net).2.1,
   (handleUserPromptSubmit_spec sid inp net).1, (handleUserPromptSubmit_spec sid inp net).2.1,
   (handleUserPromptSubmit_spec sid inp net).2.2,
   (handlePostToolUse_spec sid inp net).1, (handlePostToolUse_spec sid inp net).2.1⟩

/-- C2 counterexample: the health probe succeeds (200, ok) but the version
fetch comes back non-ok (500), so checkWorkerVersion throws; the surrounding
try/catch of ensureWorkerRunning swallows the error and the function returns
false — not true as the claim states. -/
theorem ensureWorkerRunning_version_failure_returns_false :
    ensureWorkerRunning (Except.ok ⟨true, 200⟩) (Except.ok "9.1.2") (Except.ok ⟨false, 500, ""⟩) = false := rfl

/-- C2 amended: ensureWorkerRunning consumes exactly one liveness probe
outcome and returns true exactly when the probe succeeded with an ok
response and the version check raised no error; a probe failure, a non-ok
probe response, or an error thrown by the version check all yield false,
and nothing propagates to the caller (the function is total into Bool). -/
theorem ensureWorkerRunning_spec (healthFetch : Except String Response)
    (pluginVersion : Except String String) (versionFetch : Except String VResp) :
    ensureWorkerRunning healthFetch pluginVersion versionFetch =
      (respOk healthFetch && exOk (checkWorkerVersion pluginVersion versionFetch)) := by
  rcases healthFetch with m | ⟨hok, hst⟩
  · rfl
  · cases hok
    · rfl
    · rcases pluginVersion with m2 | pv
      · rfl
      · rcases versionFetch with m3 | ⟨vok, vst, vv⟩
        · rfl
        · cases vok <;> rfl

/-- C3 counterexample: a rejected health fetch (no listener on the target
host:port) makes isWorkerHealthy propagate the error to its caller instead
of returning false. -/
theorem isWorkerHealthy_propagates_rejection :
    isWorkerHealthy (Except.error "connect ECONNREFUSED") = Except.error "connect ECONNREFUSED"
    ∧ isWorkerHealthy (Except.error "connect ECONNREFUSED") ≠ Except.ok false := by
  refine ⟨rfl, ?_⟩
  intro h
  exact Except.noConfusion h

/-- C3 amended: when the network call rejects, isWorkerHealthy propagates
the failure to its caller; its sole caller ensureWorkerRunning catches it
and treats the worker as not healthy, returning false for every plugin
version and version-fetch outcome. -/
theorem isWorkerHealthy_rejection_handled_by_caller (e : String)
    (pluginVersion : Except String String) (versionFetch : Except String VResp) :
    isWorkerHealthy (Except.error e) = Except.error e
    ∧ ensureWorkerRunning (Except.error e) pluginVersion versionFetch = false :=
  ⟨rfl, rfl⟩

/-! Helper lemmas about the port/host cache. -/

theorem getWorkerPort_noEnv (hv : Option String) (now : Int) (settingsPort : String)
    (st : WorkerUtilsState) :
    getWorkerPort ⟨none, hv⟩ now settingsPort st = getWorkerPortChain now settingsPort st := rfl

theorem getWorkerPortChain_miss (now : Int) (settingsPort : String) (st : WorkerUtilsState)
    (h0 : st.cachedPort = none) :
    getWorkerPortChain now settingsPort st =
      ⟨parseIntJS settingsPort,
       { st with cachedPort := some (parseIntJS settingsPort), cacheTime := now }, true⟩ := by
  unfold getWorkerPortChain
  simp [h0]

theorem getWorkerPortChain_hit (now : Int) (settingsPort : String) (st : WorkerUtilsState)
    (p : JSNum) (hp : st.cachedPort = some p) (hfresh : now - st.cacheTime < CACHE_TTL) :
    getWorkerPortChain now settingsPort st = ⟨p, st, false⟩ := by
  unfold getWorkerPortChain
  simp [hp, hfresh]

theorem getWorkerPortChain_expired (now : Int) (settingsPort : String) (st : WorkerUtilsState)
    (hexp : CACHE_TTL ≤ now - st.cacheTime) :
    getWorkerPortChain now settingsPort st =
      ⟨parseIntJS settingsPort,
       { st with cachedPort := some (parseIntJS settingsPort), cacheTime := now }, true⟩ := by
  unfold getWorkerPortChain
  simp [show ¬(now - st.cacheTime < CACHE_TTL) from not_lt.mpr hexp]

/-- C4: when CLAUDE_MEM_WORKER_PORT is set in the environment, non-empty and
parses to a number, getWorkerPort returns that parsed value for every cache
state, clock value and settings content, leaving the cache untouched and
reading no file; when it is set but parses to NaN, it is ignored and the
call behaves exactly like a call with no environment variable, using the
normal cache/settings chain. -/
theorem getWorkerPort_env_override (s settingsPort : String) (hv hv2 : Option String)
    (now : Int) (st : WorkerUtilsState) :
    (s.isEmpty = false → parseIntJS s ≠ JSNum.nan →
      getWorkerPort ⟨some s, hv⟩ now settingsPort st = ⟨parseIntJS s, st, false⟩)
    ∧ (parseIntJS s = JSNum.nan →
      getWorkerPort ⟨some s, hv⟩ now settingsPort st =
        getWorkerPort ⟨none, hv2⟩ now settingsPort st) := by
  constructor
  · intro hne hnum
    unfold getWorkerPort
    simp [envTruthy, hne, hnum]
  · intro hnan
    unfold getWorkerPort
    by_cases he : s.isEmpty
    · simp [envTruthy, he]
    · simp [envTruthy, he, hnan]

/-- Witness for C4: a numeric override "38000" is returned directly with no
read and no state change, and a non-numeric override "abc" falls back to
the settings chain. -/
theorem getWorkerPort_env_override_witness :
    getWorkerPort ⟨some "38000", none⟩ 0 "37777" initialState =
      ⟨JSNum.num 38000, initialState, false⟩
    ∧ getWorkerPort ⟨some "abc", none⟩ 0 "37777" initialState =
        getWorkerPort ⟨none, none⟩ 0 "37777" initialState := by
  constructor
  · exact ((getWorkerPort_env_override "38000" "37777" none none 0 initialState).1
      (by decide) (by decide)).trans (by decide)
  · exact (getWorkerPort_env_override "abc" "37777" none none 0 initialState).2 (by decide)

/-- C5: with no environment override and an empty cache, the first
getWorkerPort call reads the settings file; a second call whose age since
that cache fill is below the 60000 ms TTL performs no read and returns the
same cached port, while a second call whose age is at least the TTL
performs exactly one fresh read and returns the freshly parsed settings
value, never the expired entry. -/
theorem getWorkerPort_ttl (settings1 settings2 : String) (t1 t2 : Int) (hv : Option String)
    (st0 : WorkerUtilsState) (h0 : st0.cachedPort = none) :
    (getWorkerPort ⟨none, hv⟩ t1 settings1 st0).didRead = true
    ∧ (getWorkerPort ⟨none, hv⟩ t1 settings1 st0).value = parseIntJS settings1
    ∧ (t2 - t1 < CACHE_TTL →
        getWorkerPort ⟨none, hv⟩ t2 settings2 (getWorkerPort ⟨none, hv⟩ t1 settings1 st0).state =
          ⟨parseIntJS settings1, (getWorkerPort ⟨none, hv⟩ t1 settings1 st0).state, false⟩)
    ∧ (CACHE_TTL ≤ t2 - t1 →
        getWorkerPort ⟨none, hv⟩ t2 settings2 (getWorkerPort ⟨none, hv⟩ t1 settings1 st0).state =
          ⟨parseIntJS settings2,
           { cachedPort := some (parseIntJS settings2), cachedHost := st0.cachedHost,
             cacheTime := t2 }, true⟩) := by
  have hfill : getWorkerPort ⟨none, hv⟩ t1 settings1 st0 =
      ⟨parseIntJS settings1,
       { st0 with cachedPort := some (parseIntJS settings1), cacheTime := t1 }, true⟩ :=
    (getWorkerPort_noEnv hv t1 settings1 st0).trans (getWorkerPortChain_miss t1 settings1 st0 h0)
  refine ⟨by rw [hfill], by rw [hfill], ?_, ?_⟩
  · intro hlt
    rw [hfill, getWorkerPort_noEnv]
    exact getWorkerPortChain_hit t2 settings2 _ (parseIntJS settings1) rfl hlt
  · intro hge
    rw [hfill, getWorkerPort_noEnv]
    exact getWorkerPortChain_expired t2 settings2 _ hge

/-- Witness for C5: the settings port 37777 is read once at time 0; at time
59999 it is served from the cache with no read; at time 60000 a fresh read
returns the new settings value 40000. -/
theorem getWorkerPort_ttl_witness :
    (getWorkerPort ⟨none, none⟩ 0 "37777" initialState).didRead = true
    ∧ getWorkerPort ⟨none, none⟩ 59999 "40000"
        (getWorkerPort ⟨none, none⟩ 0 "37777" initialState).state =
        ⟨JSNum.num 37777, (getWorkerPort ⟨none, none⟩ 0 "37777" initialState).state, false⟩
    ∧ getWorkerPort ⟨none, none⟩ 60000 "40000"
        (getWorkerPort ⟨none, none⟩ 0 "37777" initialState).state =
        ⟨JSNum.num 40000, ⟨some (JSNum.num 40000), none, 60000⟩, true⟩ := by
  have h1 := getWorkerPort_ttl "37777" "40000" 0 59999 none initialState rfl
  have h2 := getWorkerPort_ttl "37777" "40000" 0 60000 none initialState rfl
  refine ⟨h1.1, ?_, ?_⟩
  · exact (h1.2.2.1 (by decide)).trans (by decide)
  · exact (h2.2.2.2 (by decide)).trans (by decide)

/-- C10: with no environment override and an empty cache, a settings value
that does not parse to a number makes getWorkerPort return NaN without
raising (the function is total), store NaN in the cache, and a later call
within the TTL serves that NaN from the cache without a read: the presence
check on the cache distinguishes only null, not NaN. -/
theorem getWorkerPort_caches_nan (settingsPort settings2 : String) (t1 t2 : Int)
    (hv : Option String) (st0 : WorkerUtilsState) (h0 : st0.cachedPort = none)
    (hnan : parseIntJS settingsPort = JSNum.nan) (hlt : t2 - t1 < CACHE_TTL) :
    (getWorkerPort ⟨none, hv⟩ t1 settingsPort st0).value = JSNum.nan
    ∧ (getWorkerPort ⟨none, hv⟩ t1 settingsPort st0).state.cachedPort = some JSNum.nan
    ∧ (getWorkerPort ⟨none, hv⟩ t1 settingsPort st0).didRead = true
    ∧ getWorkerPort ⟨none, hv⟩ t2 settings2 (getWorkerPort ⟨none, hv⟩ t1 settingsPort st0).state =
        ⟨JSNum.nan, (getWorkerPort ⟨none, hv⟩ t1 settingsPort st0).state, false⟩ := by
  have hfill : getWorkerPort ⟨none, hv⟩ t1 settingsPort st0 =
      ⟨JSNum.nan, { st0 with cachedPort := some JSNum.nan, cacheTime := t1 }, true⟩ := by
    rw [getWorkerPort_noEnv, getWorkerPortChain_miss t1 settingsPort st0 h0, hnan]
  refine ⟨by rw [hfill], by rw [hfill], by rw [hfill], ?_⟩
  rw [hfill, getWorkerPort_noEnv]
  exact getWorkerPortChain_hit t2 settings2 _ JSNum.nan rfl hlt

/-- Witness for C10: the unparsable settings value "abc" at time 0 yields
NaN, caches NaN, and the call at time 1000 serves NaN from the cache. -/
theorem getWorkerPort_caches_nan_witness :
    (getWorkerPort ⟨none, none⟩ 0 "abc" initialState).value = JSNum.nan
    ∧ (getWorkerPort ⟨none, none⟩ 0 "abc" initialState).state.cachedPort = some JSNum.nan
    ∧ getWorkerPort ⟨none, none⟩ 1000 "37777"
        (getWorkerPort ⟨none, none⟩ 0 "abc" initialState).state =
        ⟨JSNum.nan, (getWorkerPort ⟨none, none⟩ 0 "abc" initialState).state, false⟩ := by
  have h := getWorkerPort_caches_nan "abc" "37777" 0 1000 none initialState rfl (by decide) (by decide)
  exact ⟨h.1, h.2.1, h.2.2.2⟩

/-! Helper lemmas about the host cache. -/

theorem getWorkerHost_cached (env : ProcEnv) (settingsHost : String) (st : WorkerUtilsState)
    (h : String) (hc : st.cachedHost = some h) :
    getWorkerHost env settingsHost st = ⟨h, st, false⟩ := by
  unfold getWorkerHost
  rw [hc]

theorem getWorkerHost_first (env : ProcEnv) (settingsHost : String) (st : WorkerUtilsState)
    (hc : st.cachedHost = none) :
    getWorkerHost env settingsHost st =
      ⟨settingsHost, { st with cachedHost := some settingsHost }, true⟩ := by
  unfold getWorkerHost
  rw [hc]

theorem runHostCalls_cached (calls : List (ProcEnv × String)) (st : WorkerUtilsState)
    (h : String) (hc : st.cachedHost = some h) :
    runHostCalls calls st = (List.replicate calls.length h, st, 0) := by
  induction calls with
  | nil => simp [runHostCalls]
  | cons c rest ih =>
    simp [runHostCalls, getWorkerHost_cached c.1 c.2 st h hc, ih, List.replicate_succ]

/-- C8 counterexample: with the host environment variable set and an empty
cache, getWorkerHost returns the settings-file host, not the environment
value — the function consults no environment variable, so the priority
chain of getWorkerPort (environment override highest) does not apply to the
host. -/
theorem getWorkerHost_ignores_env :
    (getWorkerHost ⟨none, some "10.0.0.5"⟩ "127.0.0.1" initialState).value = "127.0.0.1"
    ∧ (getWorkerHost ⟨none, some "10.0.0.5"⟩ "127.0.0.1" initialState).value ≠ "10.0.0.5" :=
  ⟨rfl, by decide⟩

/-- C8 amended: getWorkerHost has no environment override; in every sequence
of calls that starts from a state with no cached host and has no intervening
clearPortCache, only the first call reads the settings file (exactly one
read over the whole sequence) and every call returns the host read by the
first call, regardless of each later call's ambient environment,
settings content or elapsed time (the function consults no clock). -/
theorem getWorkerHost_lifetime_cache (c : ProcEnv × String) (calls : List (ProcEnv × String))
    (st0 : WorkerUtilsState) (h0 : st0.cachedHost = none) :
    (runHostCalls (c :: calls) st0).1 = List.replicate (calls.length + 1) c.2
    ∧ (runHostCalls (c :: calls) st0).2.2 = 1 := by
  have hfirst := getWorkerHost_first c.1 c.2 st0 h0
  have hrest := runHostCalls_cached calls
    { st0 with cachedHost := some c.2 } c.2 rfl
  constructor
  · simp [runHostCalls, hfirst, hrest, List.replicate_succ]
  · simp [runHostCalls, hfirst, hrest]

/-- Witness for C8: two calls from the empty cache, the second with a
different ambient environment and settings content, return the first
settings host twice with a single read. -/
theorem getWorkerHost_lifetime_cache_witness :
    (runHostCalls [(⟨none, none⟩, "127.0.0.1"), (⟨none, some "x"⟩, "192.168.0.9")] initialState).1 =
      ["127.0.0.1", "127.0.0.1"]
    ∧ (runHostCalls [(⟨none, none⟩, "127.0.0.1"), (⟨none, some "x"⟩, "192.168.0.9")] initialState).2.2 = 1 := by
  have h := getWorkerHost_lifetime_cache (⟨none, none⟩, "127.0.0.1")
    [(⟨none, some "x"⟩, "192.168.0.9")] initialState rfl
  exact ⟨h.1.trans (by decide), h.2⟩

/-! Helper lemmas about the port allocator loop. -/

theorem findAvailablePortGo_all_occupied (free : Nat → Bool) (basePort : Nat) (fuel : Nat) :
    ∀ i, (∀ j, i ≤ j → j < i + fuel → free (basePort + j) = false) →
      findAvailablePortGo free basePort i fuel = (basePort, List.range' (basePort + i) fuel) := by
  induction fuel with
  | zero => intro i hall; simp [findAvailablePortGo]
  | succ f ih =>
    intro i hall
    have h1 : free (basePort + i) = false := hall i (le_refl i) (by omega)
    have h2 : findAvailablePortGo free basePort (i + 1) f =
        (basePort, List.range' (basePort + (i + 1)) f) :=
      ih (i + 1) (fun j hj1 hj2 => hall j (by omega) (by omega))
    simp [findAvailablePortGo, h1, h2, List.range'_succ]
    omega

theorem findAvailablePortGo_first_free (free : Nat → Bool) (basePort : Nat) (fuel : Nat) :
    ∀ i k, i ≤ k → k < i + fuel → free (basePort + k) = true →
      (∀ j, i ≤ j → j < k → free (basePort + j) = false) →
      findAvailablePortGo free basePort i fuel =
        (basePort + k, List.range' (basePort + i) (k - i + 1)) := by
  induction fuel with
  | zero => intro i k hik hk hfree hbefore; omega
  | succ f ih =>
    intro i k hik hk hfree hbefore
    by_cases hi : i = k
    · subst hi
      simp [findAvailablePortGo, hfree, List.range'_succ]
    · have hlt : i < k := lt_of_le_of_ne hik hi
      have h1 : free (basePort + i) = false := hbefore i (le_refl i) hlt
      have h2 := ih (i + 1) k (by omega) (by omega) hfree
        (fun j hj1 hj2 => hbefore j (by omega) hj2)
      simp [findAvailablePortGo, h1, h2, List.range'_succ]
      have e1 : k - i = k - (i + 1) + 1 := by omega
      rw [e1, List.range'_succ]
      rfl

/-- C6: findAvailablePort probes basePort, basePort+1, ...,
basePort+maxAttempts-1 strictly in that order; when p in that range is the
first port the TCP-level probe reports free, it returns p having probed
exactly basePort..p and no port beyond p; when no candidate is free it
returns basePort unchanged after probing the full range, and in either case
it is a total function (it never raises). -/
theorem findAvailablePort_spec (basePort maxAttempts : Nat) (free : Nat → Bool) :
    (∀ p, basePort ≤ p → p < basePort + maxAttempts → free p = true →
      (∀ q, basePort ≤ q → q < p → free q = false) →
      findAvailablePort basePort free maxAttempts =
        (p, List.range' basePort (p - basePort + 1)))
    ∧ ((∀ q, basePort ≤ q → q < basePort + maxAttempts → free q = false) →
      findAvailablePort basePort free maxAttempts =
        (basePort, List.range' basePort maxAttempts)) := by
  constructor
  · intro p hp1 hp2 hfree hbefore
    have h := findAvailablePortGo_first_free free basePort maxAttempts 0 (p - basePort)
      (by omega) (by omega)
      (by rw [show basePort + (p - basePort) = p by omega]; exact hfree)
      (fun j hj1 hj2 => hbefore (basePort + j) (by omega) (by omega))
    rw [findAvailablePort, h]
    have e1 : basePort + (p - basePort) = p := by omega
    have e2 : basePort + 0 = basePort := by omega
    have e3 : p - basePort - 0 + 1 = p - basePort + 1 := by omega
    rw [e1, e2, e3]
  · intro hall
    have h := findAvailablePortGo_all_occupied free basePort maxAttempts 0
      (fun j hj1 hj2 => hall (basePort + j) (by omega) (by omega))
    rw [findAvailablePort, h]
    rw [show basePort + 0 = basePort by omega]

/-- Witness for C6: with every port free, the base port 37777 is returned
after a single probe; with every port occupied, 37777 is returned after
probing all ten candidates 37777..37786. -/
theorem findAvailablePort_spec_witness :
    findAvailablePort 37777 (fun _ => true) 10 = (37777, [37777])
    ∧ findAvailablePort 37777 (fun _ => false) 10 =
        (37777, [37777, 37778, 37779, 37780, 37781, 37782, 37783, 37784, 37785, 37786]) := by
  constructor
  · have h := (findAvailablePort_spec 37777 10 (fun _ => true)).1 37777
      (le_refl _) (by omega) rfl (fun q hq1 hq2 => absurd (lt_of_le_of_lt hq1 hq2) (lt_irrefl _))
    exact h.trans (by decide)
  · have h := (findAvailablePort_spec 37777 10 (fun _ => false)).2 (fun q hq1 hq2 => rfl)
    exact h.trans (by decide)

/-- C7: fetchWithTimeout races the fetch against the timer and settles with
whichever finishes first: when the fetch never settles, the promise settles
no later than the deadline, with the timeout error and never as success;
when the fetch settles strictly before the deadline — fulfilment or
rejection alike — the promise adopts the fetch outcome at the fetch's
settle time and the pending timer is cleared. -/
theorem fetchWithTimeout_spec (timeoutMs t : Int) (r : Except String Response) :
    (fetchWithTimeout timeoutMs FetchEvent.neverSettles).settleTime ≤ timeoutMs
    ∧ (fetchWithTimeout timeoutMs FetchEvent.neverSettles).outcome =
        Except.error (timeoutMessage timeoutMs)
    ∧ exOk (fetchWithTimeout timeoutMs FetchEvent.neverSettles).outcome = false
    ∧ (t < timeoutMs →
        fetchWithTimeout timeoutMs (FetchEvent.settles t r) = ⟨t, r, true⟩) := by
  refine ⟨le_refl _, rfl, rfl, ?_⟩
  intro ht
  simp [fetchWithTimeout, ht]

/-- Witness for C7: against a fetch that settles successfully at 100 ms
with a 5000 ms deadline, the race adopts the response at 100 ms and clears
the timer; the never-settling case is closed with the timeout error. -/
theorem fetchWithTimeout_spec_witness :
    fetchWithTimeout 5000 (FetchEvent.settles 100 (Except.ok ⟨true, 200⟩)) =
      ⟨100, Except.ok ⟨true, 200⟩, true⟩
    ∧ (fetchWithTimeout 5000 FetchEvent.neverSettles).outcome =
        Except.error (timeoutMessage 5000) :=
  ⟨(fetchWithTimeout_spec 5000 100 (Except.ok ⟨true, 200⟩)).2.2.2 (by decide),
   (fetchWithTimeout_spec 5000 0 (Except.ok ⟨true, 200⟩)).2.1⟩

/-- C9: three of the four handlers bypass the keep-alive transport.  With a
keep-alive channel whose call would succeed (ok, 200) and a plain global
fetch that rejects, the tool-observation, stop and session-end handlers all
exit 2 — their outcome is driven entirely by the plain fetch — while the
prompt-submit handler exits 3.  Moreover each of those three handlers is
invariant under any change of the keep-alive channel, and prompt-submit is
invariant under any change of the plain channel. -/
theorem keepalive_transport_usage :
    (handlePostToolUse (Except.ok "session-1") (Except.ok ())
      ⟨Except.error "connect ECONNREFUSED", Except.ok ⟨true, 200⟩⟩).exitCode = 2
    ∧ (handleStop (Except.ok "session-1")
      ⟨Except.error "connect ECONNREFUSED", Except.ok ⟨true, 200⟩⟩).exitCode = 2
    ∧ (handleSessionEnd (Except.ok "session-1")
      ⟨Except.error "connect ECONNREFUSED", Except.ok ⟨true, 200⟩⟩).exitCode = 2
    ∧ (handleUserPromptSubmit (Except.ok "session-1") (Except.ok ())
      ⟨Except.error "connect ECONNREFUSED", Except.ok ⟨true, 200⟩⟩).exitCode = 3
    ∧ (∀ sid inp f ka ka2, handlePostToolUse sid inp ⟨f, ka⟩ = handlePostToolUse sid inp ⟨f, ka2⟩)
    ∧ (∀ sid f ka ka2, handleStop sid ⟨f, ka⟩ = handleStop sid ⟨f, ka2⟩)
    ∧ (∀ sid f ka ka2, handleSessionEnd sid ⟨f, ka⟩ = handleSessionEnd sid ⟨f, ka2⟩)
    ∧ (∀ sid inp f f2 ka, handleUserPromptSubmit sid inp ⟨f, ka⟩ = handleUserPromptSubmit sid inp ⟨f2, ka⟩) :=
  ⟨rfl, rfl, rfl, rfl,
   fun _ _ _ _ _ => rfl, fun _ _ _ _ => rfl, fun _ _ _ _ => rfl, fun _ _ _ _ _ => rfl⟩

end ClaudeMem
